import Mathlib

/-!
Verification development for `src/data/make_test_data.py`, a script that
generates synthetic customer-master test data and writes it either to a CSV
file or to a Snowflake table.

The Python code is shallowly embedded below.  Randomness (`randint`, the
faker library) is modelled by passing an explicit oracle of raw draws; the
library call `randint(lo, hi)` maps a raw draw into the inclusive range
`[lo, hi]`, exactly the contract the Python function guarantees.  Datetimes
are modelled as seconds (`Nat`); `timedelta(days, seconds)` is
`days * 86400 + seconds`.  The file system and the warehouse are modelled
as association lists from keys to written content, and pandas `DataFrame`
as a column list plus cell rows.  Python exceptions are modelled with
`Except` over an error datatype.
-/

namespace MakeTestData

/-- Python `randint(lo, hi)`: an integer in the inclusive range `[lo, hi]`,
selected by the raw draw `r`. -/
def randint (lo hi r : Nat) : Nat := lo + r % (hi - lo + 1)

/-- `timedelta(days, seconds)` expressed in seconds. -/
def timedelta (days seconds : Nat) : Nat := days * 86400 + seconds

/-- `faker.boolean(chance_of_getting_true=p)`: true iff the raw draw,
reduced mod 100, falls below `p`. -/
def fakerBoolean (p r : Nat) : Bool := r % 100 < p

/-- The keys of `country_locale_map` in source order (`["US", "UK"]`). -/
def countryKeys : List String := ["US", "UK"]

/-- One record's worth of raw random draws and faker string outputs,
standing for the calls made in one iteration of the `generate_data` loop. -/
structure Draws where
  countryRand : Nat
  stateAbbrStr : String
  countyStr : String
  isActiveRand : Nat
  createdAtRand : Nat
  updDaysRand : Nat
  updSecsRand : Nat
  delDaysRand : Nat
  delSecsRand : Nat
  custIdRand : Nat
  firstNameStr : String
  lastNameStr : String
  emailStr : String
  phoneStr : String
  addressStr : String
  cityStr : String
  postcodeStr : String
  deriving DecidableEq, Repr

/-- A customer-master record: the dictionary appended per loop iteration in
`CustomerMasterTestData.generate_data`. -/
structure CustomerRecord where
  cust_id : Nat
  first_name : String
  last_name : String
  email : String
  phone : String
  address : String
  city : String
  county : Option String
  state : Option String
  postal_code : String
  country : String
  is_active : Bool
  created_at : Nat
  updated_at : Nat
  deleted_at : Option Nat
  deriving DecidableEq, Repr

/-- The body of the `for i in range(num_records)` loop in
`CustomerMasterTestData.generate_data` (lines 101 to 145 of the source),
producing one record from one set of draws. -/
def generateRecord (d : Draws) : CustomerRecord :=
  let country := countryKeys.getD (randint 0 (countryKeys.length - 1) d.countryRand) ""
  let state := if country = "US" then some d.stateAbbrStr else none
  let county := if country = "US" then none else some d.countyStr
  let is_active := fakerBoolean 90 d.isActiveRand
  let created_at := d.createdAtRand
  let updated_at :=
    created_at + timedelta (randint 1 7 d.updDaysRand) (randint 60 1000 d.updSecsRand)
  let deleted_at :=
    if ¬ is_active then
      some (updated_at + timedelta (randint 1 7 d.delDaysRand) (randint 60 1000 d.delSecsRand))
    else
      none
  { cust_id := randint 10000 20000 d.custIdRand
    first_name := d.firstNameStr
    last_name := d.lastNameStr
    email := d.emailStr
    phone := d.phoneStr
    address := d.addressStr
    city := d.cityStr
    county := county
    state := state
    postal_code := d.postcodeStr
    country := country
    is_active := is_active
    created_at := created_at
    updated_at := updated_at
    deleted_at := deleted_at }

/-- The mutable state of a `CustomerMasterTestData` object: the `data`
attribute is absent (`none`) until `generate_data` first assigns it. -/
structure CustomerMasterTestData where
  data : Option (List CustomerRecord) := none
  deriving DecidableEq, Repr

/-- `CustomerMasterTestData.generate_data(num_records)`: builds the list of
records by iterating the loop body over `range num_records` (draws supplied
by `oracle`) and assigns it to `self.data` (line 146). -/
def generate_data (self : CustomerMasterTestData) (num_records : Nat)
    (oracle : Nat → Draws) : CustomerMasterTestData :=
  let xs := (List.range num_records).map (fun i => generateRecord (oracle i))
  { self with data := some xs }

/-- A Python exception, as far as this script distinguishes them. -/
inductive PyError where
  | attributeError (msg : String)
  | keyError (key : String)
  | ioError (msg : String)
  deriving DecidableEq, Repr

/-- A scalar cell value of a pandas DataFrame built from the records. -/
inductive Cell where
  | str (v : String)
  | nat (v : Nat)
  | bool (v : Bool)
  | null
  deriving DecidableEq, Repr

/-- How a cell is rendered into CSV text: `None` becomes an empty field,
booleans render as Python `True` and `False`. -/
def renderCell : Cell → String
  | .str v => v
  | .nat v => toString v
  | .bool true => "True"
  | .bool false => "False"
  | .null => ""

/-- A pandas DataFrame: an ordered column list and the cell rows. -/
structure DataFrame where
  columns : List String
  rows : List (List Cell)
  deriving DecidableEq, Repr

/-- The dictionary keys of each generated record, in insertion order
(lines 127 to 145 of the source). -/
def recordColumns : List String :=
  ["cust_id", "first_name", "last_name", "email", "phone", "address", "city",
   "county", "state", "postal_code", "country", "is_active", "created_at",
   "updated_at", "deleted_at"]

/-- One record's dictionary values, in the key order of `recordColumns`. -/
def recordToRow (r : CustomerRecord) : List Cell :=
  [.nat r.cust_id, .str r.first_name, .str r.last_name, .str r.email,
   .str r.phone, .str r.address, .str r.city,
   (r.county.map Cell.str).getD .null, (r.state.map Cell.str).getD .null,
   .str r.postal_code, .str r.country, .bool r.is_active,
   .nat r.created_at, .nat r.updated_at,
   (r.deleted_at.map Cell.nat).getD .null]

/-- The message of the `AttributeError` Python raises when `self.data` was
never assigned. -/
def noAttrMsg : String :=
  "CustomerMasterTestData object has no attribute data"

/-- `pd.DataFrame(self.data)`: raises `AttributeError` when the `data`
attribute is absent; otherwise the columns are the record dictionary keys
(empty for an empty list of dicts) and the rows are the dictionary values. -/
def pdDataFrame : Option (List CustomerRecord) → Except PyError DataFrame
  | none => .error (.attributeError noAttrMsg)
  | some recs =>
    .ok { columns := if recs.isEmpty then [] else recordColumns
          rows := recs.map recordToRow }

/-- `TestData.data_to_df` (lines 37 to 43): converts `self.data` to a
DataFrame, turning an `AttributeError` into one whose message adds the
explicit precondition text. -/
def data_to_df (self : CustomerMasterTestData) : Except PyError DataFrame :=
  match pdDataFrame self.data with
  | .error (.attributeError msg) =>
    .error (.attributeError (msg ++ ". \nMust create test data before writing to CSV"))
  | r => r

/-- Comma-join of a list of rendered fields. -/
def commaJoin (xs : List String) : String := String.intercalate "," xs

/-- The lines of the text `DataFrame.to_csv` produces: a header line of the
column names followed by one line per row; when `index` is true an index
column is prepended (an empty header cell and the row number). -/
def csvLines (df : DataFrame) (index : Bool) : List String :=
  if index then
    commaJoin ("" :: df.columns) ::
      df.rows.enum.map (fun p => commaJoin (toString p.1 :: p.2.map renderCell))
  else
    commaJoin df.columns :: df.rows.map (fun row => commaJoin (row.map renderCell))

/-- `DataFrame.to_csv` file content. -/
def dfToCsv (df : DataFrame) (index : Bool) : String :=
  String.intercalate "\n" (csvLines df index) ++ "\n"

/-- The file system: an association list from paths to file contents. -/
abbrev FS := List (String × String)

/-- Writing a file truncates and replaces whatever was at the path. -/
def fsWrite (fs : FS) (path content : String) : FS :=
  (path, content) :: (fs.filter (fun p => p.1 ≠ path))

/-- Reading a file back. -/
def fsRead (fs : FS) (path : String) : Option String :=
  (fs.find? (fun p => p.1 = path)).map (fun p => p.2)

/-- The warehouse behind the Snowflake connection: tables keyed by
database, schema and table name, each holding the last DataFrame written. -/
abbrev Warehouse := List ((Option String × Option String × String) × DataFrame)

/-- `write_pandas(..., auto_create_table=True, overwrite=True)`: creates
the table if absent and replaces its contents with the DataFrame. -/
def whWrite (wh : Warehouse) (database schema : Option String)
    (table : String) (df : DataFrame) : Warehouse :=
  ((database, schema, table), df) :: (wh.filter (fun p => p.1 ≠ (database, schema, table)))

/-- Looking a table up in the warehouse. -/
def whRead (wh : Warehouse) (database schema : Option String) (table : String) :
    Option DataFrame :=
  (wh.find? (fun p => p.1 = (database, schema, table))).map (fun p => p.2)

/-- Outcome of `write_to_csv`: the raised-or-ok result, the file system
after the call, the lines printed, and the object after the call. -/
structure CsvWriteResult where
  result : Except PyError Unit
  fs : FS
  printed : List String
  self : CustomerMasterTestData

/-- `TestData.write_to_csv` (lines 45 to 55).  `pd.DataFrame(self.data)`
runs outside the `try` block, so its `AttributeError` propagates with no
diagnostic.  The `to_csv` call sits in the `try`; `csvFail` injects the
underlying file failure, which is printed about and re-raised unchanged. -/
def write_to_csv (self : CustomerMasterTestData) (path : String)
    (csvFail : Option PyError) (fs : FS) : CsvWriteResult :=
  match pdDataFrame self.data with
  | .error e => { result := .error e, fs := fs, printed := [], self := self }
  | .ok df =>
    match csvFail with
    | some e =>
      { result := .error e, fs := fs
        printed := ["Exception while writing data to CSV"], self := self }
    | none =>
      { result := .ok (), fs := fsWrite fs path (dfToCsv df false)
        printed := [], self := self }

/-- Outcome of `write_to_snowflake`. -/
structure SnowflakeWriteResult where
  result : Except PyError Unit
  wh : Warehouse
  printed : List String
  self : CustomerMasterTestData

/-- `TestData.write_to_snowflake` (lines 57 to 76).  The caller-owned
connection handle is represented by the warehouse state `wh`.  As in the
CSV writer, the DataFrame conversion runs outside the `try`; `whFail`
injects the underlying `write_pandas` failure, which is printed about and
re-raised unchanged. -/
def write_to_snowflake (self : CustomerMasterTestData) (table_name : String)
    (database schema : Option String) (whFail : Option PyError)
    (wh : Warehouse) : SnowflakeWriteResult :=
  match pdDataFrame self.data with
  | .error e => { result := .error e, wh := wh, printed := [], self := self }
  | .ok df =>
    match whFail with
    | some e =>
      { result := .error e, wh := wh
        printed := ["Exception while writing data to Snowflake"], self := self }
    | none =>
      { result := .ok (), wh := whWrite wh database schema table_name df
        printed := [], self := self }

/-- `valid_format_dict` (line 158): string value of each `StorageFormats`
member mapped to its name. -/
def valid_format_dict : List (String × String) := [("1", "CSV"), ("2", "SNOWFLAKE")]

/-- Lines 166 to 172: look the entered selector up in `valid_format_dict`;
a `KeyError` is caught by printing a warning and defaulting to `"CSV"`.
Returns the selected format name and whether the warning was printed. -/
def selectFormat (format_input : String) : String × Bool :=
  match valid_format_dict.lookup format_input with
  | some name => (name, false)
  | none => ("CSV", true)

/-- Outcome of one run of the `__main__` block. -/
structure MainResult where
  promptedCount : Nat
  format_select : String
  warned : Bool
  batch : List CustomerRecord
  fs : FS
  wh : Warehouse
  result : Except PyError Unit

/-- The `__main__` block (lines 150 to 216).  `countInput` is the record
count the user typed at the prompt (`none` for an empty line, which
defaults to 1000); `formatInput` is the format selector typed; `env` is the
dotenv configuration; `oracle` supplies the random draws; `csvFail` and
`whFail` inject sink failures.  Note line 177 of the source calls
`generate_data(num_records=100)` with a literal 100. -/
def mainFlow (countInput : Option Nat) (formatInput : String)
    (env : String → Option String) (oracle : Nat → Draws)
    (csvFail whFail : Option PyError) (fs : FS) (wh : Warehouse) : MainResult :=
  let num_records := countInput.getD 1000
  let fmt := selectFormat formatInput
  let customer_test_data := generate_data {} 100 oracle
  if fmt.1 = "CSV" then
    let r := write_to_csv customer_test_data "data/source/customer_master_test_data.csv"
      csvFail fs
    { promptedCount := num_records, format_select := fmt.1, warned := fmt.2
      batch := customer_test_data.data.getD [], fs := r.fs, wh := wh
      result := r.result }
  else if fmt.1 = "SNOWFLAKE" then
    let r := write_to_snowflake customer_test_data "CUSTOMER_MASTER_TEST_DATA"
      (env "DATABASE") (env "SCHEMA") whFail wh
    { promptedCount := num_records, format_select := fmt.1, warned := fmt.2
      batch := customer_test_data.data.getD [], fs := fs, wh := r.wh
      result := r.result }
  else
    { promptedCount := num_records, format_select := fmt.1, warned := fmt.2
      batch := customer_test_data.data.getD [], fs := fs, wh := wh
      result := .ok () }

/-- The offsets the source adds between consecutive timestamps:
`timedelta(randint(1, 7), randint(60, 1000))`. -/
def validOffset (n : Nat) : Prop :=
  ∃ d s, 1 ≤ d ∧ d ≤ 7 ∧ 60 ≤ s ∧ s ≤ 1000 ∧ n = timedelta d s

/-- A fixed oracle of draws used for concrete evaluations. -/
def oracle0 : Nat → Draws := fun _ =>
  { countryRand := 0, stateAbbrStr := "CA", countyStr := "Kent"
    isActiveRand := 95, createdAtRand := 0, updDaysRand := 0, updSecsRand := 0
    delDaysRand := 0, delSecsRand := 0, custIdRand := 0, firstNameStr := "Ann"
    lastNameStr := "Lee", emailStr := "ann@test.org", phoneStr := "555"
    addressStr := "1 Main St", cityStr := "Springfield", postcodeStr := "12345" }

lemma randint_lower (lo hi r : Nat) : lo ≤ randint lo hi r :=
  Nat.le_add_right lo _

lemma randint_upper (lo hi r : Nat) (h : lo ≤ hi) : randint lo hi r ≤ hi := by
  have hm : r % (hi - lo + 1) ≤ hi - lo :=
    Nat.lt_succ_iff.mp (Nat.mod_lt r (Nat.succ_pos _))
  calc lo + r % (hi - lo + 1) ≤ lo + (hi - lo) := Nat.add_le_add_left hm lo
    _ = hi := Nat.add_sub_cancel' h

lemma validOffset_randint (r1 r2 : Nat) :
    validOffset (timedelta (randint 1 7 r1) (randint 60 1000 r2)) :=
  ⟨randint 1 7 r1, randint 60 1000 r2,
    randint_lower 1 7 r1, randint_upper 1 7 r1 (by norm_num),
    randint_lower 60 1000 r2, randint_upper 60 1000 r2 (by norm_num), rfl⟩

lemma timedelta_pos (r1 r2 : Nat) :
    0 < timedelta (randint 1 7 r1) (randint 60 1000 r2) := by
  have h1 : 1 ≤ randint 1 7 r1 := randint_lower 1 7 r1
  unfold timedelta
  omega

/-- Every record in a generated batch is `generateRecord` of some draw. -/
lemma mem_generate_data {self : CustomerMasterTestData} {n : Nat}
    {oracle : Nat → Draws} {r : CustomerRecord}
    (h : r ∈ (generate_data self n oracle).data.getD []) :
    ∃ i, r = generateRecord (oracle i) := by
  simp only [generate_data, Option.getD_some, List.mem_map] at h
  obtain ⟨i, _, hi⟩ := h
  exact ⟨i, hi.symm⟩

/-- Per-draw analysis of the region fields: the sampled country is `"US"`
or `"UK"`, and it decides which of state and county is populated. -/
lemma generateRecord_region (d : Draws) :
    ((generateRecord d).country = "US" ∧
      (generateRecord d).state = some d.stateAbbrStr ∧
      (generateRecord d).county = none) ∨
    ((generateRecord d).country = "UK" ∧
      (generateRecord d).state = none ∧
      (generateRecord d).county = some d.countyStr) := by
  rcases Nat.mod_two_eq_zero_or_one d.countryRand with h | h <;>
    simp [generateRecord, randint, countryKeys, h]

lemma generateRecord_created (d : Draws) :
    (generateRecord d).created_at = d.createdAtRand := rfl

lemma generateRecord_updated (d : Draws) :
    (generateRecord d).updated_at =
      d.createdAtRand +
        timedelta (randint 1 7 d.updDaysRand) (randint 60 1000 d.updSecsRand) := rfl

lemma generateRecord_is_active (d : Draws) :
    (generateRecord d).is_active = fakerBoolean 90 d.isActiveRand := rfl

lemma generateRecord_deleted (d : Draws) :
    (generateRecord d).deleted_at =
      if fakerBoolean 90 d.isActiveRand then none
      else some (d.createdAtRand +
        timedelta (randint 1 7 d.updDaysRand) (randint 60 1000 d.updSecsRand) +
        timedelta (randint 1 7 d.delDaysRand) (randint 60 1000 d.delSecsRand)) := by
  by_cases h : fakerBoolean 90 d.isActiveRand <;> simp [generateRecord, h]

/-- Per-draw analysis of the timestamps. -/
lemma generateRecord_times (d : Draws) :
    (generateRecord d).created_at < (generateRecord d).updated_at ∧
    validOffset ((generateRecord d).updated_at - (generateRecord d).created_at) ∧
    ((generateRecord d).is_active = false →
      ∃ del, (generateRecord d).deleted_at = some del ∧
        (generateRecord d).updated_at < del ∧
        validOffset (del - (generateRecord d).updated_at)) ∧
    ((generateRecord d).is_active = true → (generateRecord d).deleted_at = none) := by
  have hup := timedelta_pos d.updDaysRand d.updSecsRand
  have hdel := timedelta_pos d.delDaysRand d.delSecsRand
  have hvu := validOffset_randint d.updDaysRand d.updSecsRand
  have hvd := validOffset_randint d.delDaysRand d.delSecsRand
  rw [generateRecord_created, generateRecord_updated, generateRecord_is_active,
    generateRecord_deleted]
  refine ⟨by omega, ?_, ?_, ?_⟩
  · rw [Nat.add_sub_cancel_left]
    exact hvu
  · intro hfa
    refine ⟨d.createdAtRand +
        timedelta (randint 1 7 d.updDaysRand) (randint 60 1000 d.updSecsRand) +
        timedelta (randint 1 7 d.delDaysRand) (randint 60 1000 d.delSecsRand),
      by simp [hfa], by omega, ?_⟩
    rw [Nat.add_sub_cancel_left]
    exact hvd
  · intro hta
    simp [hta]

/-- C1: in every generated batch, exactly one of state and county is
non-null, with state populated exactly when the record's country is US. -/
theorem region_fields_exclusive (self : CustomerMasterTestData) (n : Nat)
    (oracle : Nat → Draws) (r : CustomerRecord)
    (h : r ∈ (generate_data self n oracle).data.getD []) :
    r.state.isSome ≠ r.county.isSome ∧
    (r.country = "US" → r.state.isSome = true ∧ r.county = none) ∧
    (r.country ≠ "US" → r.county.isSome = true ∧ r.state = none) := by
  obtain ⟨i, hi⟩ := mem_generate_data h
  subst hi
  rcases generateRecord_region (oracle i) with ⟨hc, hs, hco⟩ | ⟨hc, hs, hco⟩ <;>
    rw [hc, hs, hco] <;> simp

theorem region_fields_exclusive_witness :
    (generateRecord (oracle0 0)) ∈ ((generate_data {} 1 oracle0).data.getD []) ∧
    ((generateRecord (oracle0 0)).state.isSome ≠ (generateRecord (oracle0 0)).county.isSome ∧
    ((generateRecord (oracle0 0)).country = "US" →
      (generateRecord (oracle0 0)).state.isSome = true ∧
      (generateRecord (oracle0 0)).county = none) ∧
    ((generateRecord (oracle0 0)).country ≠ "US" →
      (generateRecord (oracle0 0)).county.isSome = true ∧
      (generateRecord (oracle0 0)).state = none)) :=
  ⟨by simp [generate_data],
    region_fields_exclusive {} 1 oracle0 (generateRecord (oracle0 0))
      (by simp [generate_data])⟩

/-- C2: in every generated batch, the update time strictly follows the
creation time by an offset of 1 to 7 days plus 60 to 1000 seconds; when the
record is inactive the deletion time strictly follows the update time by
another such offset, and when it is active the deletion time is null. -/
theorem timestamps_strictly_ordered (self : CustomerMasterTestData) (n : Nat)
    (oracle : Nat → Draws) (r : CustomerRecord)
    (h : r ∈ (generate_data self n oracle).data.getD []) :
    r.created_at < r.updated_at ∧
    validOffset (r.updated_at - r.created_at) ∧
    (r.is_active = false →
      ∃ del, r.deleted_at = some del ∧ r.updated_at < del ∧
        validOffset (del - r.updated_at)) ∧
    (r.is_active = true → r.deleted_at = none) := by
  obtain ⟨i, hi⟩ := mem_generate_data h
  subst hi
  exact generateRecord_times (oracle i)

theorem timestamps_strictly_ordered_witness :
    (generateRecord (oracle0 0)) ∈ ((generate_data {} 1 oracle0).data.getD []) ∧
    ((generateRecord (oracle0 0)).created_at < (generateRecord (oracle0 0)).updated_at ∧
    validOffset ((generateRecord (oracle0 0)).updated_at - (generateRecord (oracle0 0)).created_at) ∧
    ((generateRecord (oracle0 0)).is_active = false →
      ∃ del, (generateRecord (oracle0 0)).deleted_at = some del ∧
        (generateRecord (oracle0 0)).updated_at < del ∧
        validOffset (del - (generateRecord (oracle0 0)).updated_at)) ∧
    ((generateRecord (oracle0 0)).is_active = true →
      (generateRecord (oracle0 0)).deleted_at = none)) :=
  ⟨by simp [generate_data],
    timestamps_strictly_ordered {} 1 oracle0 (generateRecord (oracle0 0))
      (by simp [generate_data])⟩

/-- C5: `generate_data(N)` stores a batch of exactly `N` records. -/
theorem generate_data_count (self : CustomerMasterTestData) (n : Nat)
    (oracle : Nat → Draws) :
    ((generate_data self n oracle).data.getD []).length = n := by
  simp [generate_data]

/-- C9: `generate_data` overwrites `self.data` wholesale: afterwards the
attribute holds exactly the freshly generated records, and the outcome does
not depend on any batch stored on the object before the call. -/
theorem generate_data_replaces (self : CustomerMasterTestData) (n : Nat)
    (oracle : Nat → Draws) :
    (generate_data self n oracle).data =
      some ((List.range n).map (fun i => generateRecord (oracle i))) ∧
    ∀ other : CustomerMasterTestData,
      generate_data self n oracle = generate_data other n oracle := by
  exact ⟨rfl, fun _ => rfl⟩

lemma fsRead_fsWrite (fs : FS) (path c : String) :
    fsRead (fsWrite fs path c) path = some c := by
  simp [fsRead, fsWrite]

/-- C3: a writer invoked before `generate_data` raises the bare
`AttributeError` (the DataFrame conversion in both writers runs outside any
handler), while the explicit precondition message exists only in
`data_to_df`, which neither writer calls. -/
theorem write_before_generate_opaque_fault :
    (write_to_csv ⟨none⟩ "data/source/customer_master_test_data.csv" none []).result =
      .error (.attributeError noAttrMsg) ∧
    (write_to_csv ⟨none⟩ "data/source/customer_master_test_data.csv" none []).printed = [] ∧
    (write_to_snowflake ⟨none⟩ "CUSTOMER_MASTER_TEST_DATA" none none none []).result =
      .error (.attributeError noAttrMsg) ∧
    data_to_df ⟨none⟩ = .error (.attributeError
      (noAttrMsg ++ ". \nMust create test data before writing to CSV")) ∧
    noAttrMsg ≠ noAttrMsg ++ ". \nMust create test data before writing to CSV" := by
  refine ⟨rfl, rfl, rfl, rfl, by decide⟩

/-- C4: the `__main__` block prompts for a record count (default 1000 on an
empty line) but line 177 passes the literal 100 to `generate_data`, so the
batch written has 100 records, not the prompted count. -/
theorem cli_count_not_passed_to_generator :
    (mainFlow none "1" (fun _ => none) oracle0 none none [] []).promptedCount = 1000 ∧
    (mainFlow (some 1000) "1" (fun _ => none) oracle0 none none [] []).promptedCount = 1000 ∧
    (mainFlow none "1" (fun _ => none) oracle0 none none [] []).batch.length = 100 := by
  refine ⟨rfl, rfl, ?_⟩
  simp [mainFlow, selectFormat, valid_format_dict, generate_data]

/-- C6: a format selector outside the enumerated set is recovered locally:
the warning flag is set, the flat-file sink is selected, and the run
completes without an error. -/
theorem invalid_format_recovers (s : String)
    (h : valid_format_dict.lookup s = none) (countInput : Option Nat)
    (env : String → Option String) (oracle : Nat → Draws) (fs : FS)
    (wh : Warehouse) :
    selectFormat s = ("CSV", true) ∧
    (mainFlow countInput s env oracle none none fs wh).format_select = "CSV" ∧
    (mainFlow countInput s env oracle none none fs wh).warned = true ∧
    (mainFlow countInput s env oracle none none fs wh).result = .ok () := by
  have hsel : selectFormat s = ("CSV", true) := by simp [selectFormat, h]
  refine ⟨hsel, ?_, ?_, ?_⟩ <;>
    simp [mainFlow, hsel, write_to_csv, generate_data, pdDataFrame]

theorem invalid_format_recovers_witness :
    valid_format_dict.lookup "9" = none ∧
    (selectFormat "9" = ("CSV", true) ∧
    (mainFlow none "9" (fun _ => none) oracle0 none none [] []).format_select = "CSV" ∧
    (mainFlow none "9" (fun _ => none) oracle0 none none [] []).warned = true ∧
    (mainFlow none "9" (fun _ => none) oracle0 none none [] []).result = .ok ()) :=
  ⟨rfl, invalid_format_recovers "9" rfl none (fun _ => none) oracle0 [] []⟩

/-- C7: when the underlying sink call fails, each writer prints one
diagnostic line and re-raises the same exception unchanged, leaving the
file system, the warehouse and the object untouched. -/
theorem sink_failures_reraised (recs : List CustomerRecord) (path table : String)
    (db sc : Option String) (e : PyError) (fs : FS) (wh : Warehouse) :
    write_to_csv ⟨some recs⟩ path (some e) fs =
      { result := .error e, fs := fs
        printed := ["Exception while writing data to CSV"]
        self := ⟨some recs⟩ } ∧
    write_to_snowflake ⟨some recs⟩ table db sc (some e) wh =
      { result := .error e, wh := wh
        printed := ["Exception while writing data to Snowflake"]
        self := ⟨some recs⟩ } :=
  ⟨rfl, rfl⟩

/-- C8: on a generated batch, `write_to_csv` succeeds and stores at the
path, replacing any previous content, the CSV text whose header line is
exactly the record fields and whose remaining lines are the rendered
records, with no index column. -/
theorem write_to_csv_format (recs : List CustomerRecord) (path : String)
    (fs : FS) (hne : recs ≠ []) :
    (write_to_csv ⟨some recs⟩ path none fs).result = .ok () ∧
    fsRead (write_to_csv ⟨some recs⟩ path none fs).fs path =
      some (dfToCsv ⟨recordColumns, recs.map recordToRow⟩ false) ∧
    csvLines ⟨recordColumns, recs.map recordToRow⟩ false =
      commaJoin recordColumns ::
        recs.map (fun r => commaJoin ((recordToRow r).map renderCell)) := by
  have hemp : recs.isEmpty = false := by
    cases recs with
    | nil => exact absurd rfl hne
    | cons a l => rfl
  refine ⟨rfl, ?_, ?_⟩
  · rw [show (write_to_csv ⟨some recs⟩ path none fs).fs =
        fsWrite fs path (dfToCsv ⟨if recs.isEmpty then [] else recordColumns,
          recs.map recordToRow⟩ false) from rfl, hemp]
    simp [fsRead_fsWrite]
  · rw [show csvLines ⟨recordColumns, recs.map recordToRow⟩ false =
        commaJoin recordColumns ::
          (recs.map recordToRow).map (fun row => commaJoin (row.map renderCell))
        from rfl, List.map_map]
    rfl

theorem write_to_csv_format_witness :
    ([generateRecord (oracle0 0)] ≠ ([] : List CustomerRecord)) ∧
    ((write_to_csv ⟨some [generateRecord (oracle0 0)]⟩ "out.csv" none []).result = .ok () ∧
    fsRead (write_to_csv ⟨some [generateRecord (oracle0 0)]⟩ "out.csv" none []).fs "out.csv" =
      some (dfToCsv ⟨recordColumns, [generateRecord (oracle0 0)].map recordToRow⟩ false) ∧
    csvLines ⟨recordColumns, [generateRecord (oracle0 0)].map recordToRow⟩ false =
      commaJoin recordColumns ::
        [generateRecord (oracle0 0)].map
          (fun r => commaJoin ((recordToRow r).map renderCell))) :=
  ⟨by simp, write_to_csv_format [generateRecord (oracle0 0)] "out.csv" []
    (by simp)⟩

/-- C10: neither writer modifies the in-memory batch, whether the call
succeeds, raises the missing-attribute fault, or re-raises a sink
failure. -/
theorem writers_preserve_batch (self : CustomerMasterTestData)
    (path table : String) (db sc : Option String)
    (csvFail whFail : Option PyError) (fs : FS) (wh : Warehouse) :
    (write_to_csv self path csvFail fs).self = self ∧
    (write_to_snowflake self table db sc whFail wh).self = self := by
  obtain ⟨d⟩ := self
  cases d <;> cases csvFail <;> cases whFail <;> exact ⟨rfl, rfl⟩

end MakeTestData
